import Mathlib

/-!
Shallow embedding of `src/react_agent/tools.py` (repository shr4git/react-agent).

The module defines four tools:
* `search` (lines 19-28): Tavily search with `max_results` read from the
  ambient run context,
* `get_weather` (lines 30-53): Open-Meteo two-step pipeline inside a
  catch-all `try`; its body references the name `asyncio`, which the module
  never imports, so the call statement raises `NameError` before any HTTP
  request is issued,
* `get_weather_1` (lines 55-93): Nominatim geocode then Open-Meteo forecast,
  inside a catch-all `try`, returning a structured record,
* `get_weather_str` (lines 95-130): same pipeline with no `try`, returning a
  sentence and checking only the `.ok` flags of the responses.

The outside world is an oracle mapping each HTTP request to a response or a
transport exception; every function is embedded as a pure function of the
oracle and its arguments, returning its result together with the ordered
trace of HTTP requests it issued.  Exceptions are `Except.error` values of
type `PyError`; the `requests` library semantics embedded are:
`Response.raise_for_status` raises exactly on statuses 400-599, and
`Response.ok` — implemented in the library as "raise_for_status raised
nothing" — is false exactly on statuses 400-599.
-/

/-- Decimal floating-point literal as it appears in a JSON body: the value
`mant / 10 ^ fexp`.  The concrete mocked values of the spec (52.52, 13.405,
18.0, 10.0) are all finite decimals, and the code never computes with them,
so this carries exactly the information the pipeline observes. -/
structure PyFloat where
  mant : Int
  fexp : Nat
deriving DecidableEq

/-- Left-pad a digit string with zeros to length `n`. -/
def lpadZeros (s : String) (n : Nat) : String :=
  if s.length < n then String.mk (List.replicate (n - s.length) '0') ++ s else s

/-- Drop trailing zero digits, keeping at least one digit. -/
def fracDigits (cs : List Char) : List Char :=
  match (cs.reverse.dropWhile (fun c => c == '0')).reverse with
  | [] => ['0']
  | l => l

/-- Python `repr` of the float (what an f-string interpolates): integer part,
a dot, then the fractional digits with at least one digit kept, matching
`repr(18.0) = "18.0"`, `repr(52.52) = "52.52"`. -/
def PyFloat.render (f : PyFloat) : String :=
  let p : Nat := 10 ^ f.fexp
  let m : Nat := f.mant.natAbs
  let ip : Nat := m / p
  let fp : Nat := m % p
  let frac : List Char := fracDigits (lpadZeros (toString fp) f.fexp).toList
  (if f.mant < 0 then "-" else "") ++ toString ip ++ "." ++ String.mk frac

/-- JSON values as Python's `json` module decodes them (`null` ↦ `None`,
objects ↦ `dict`, arrays ↦ `list`; numbers split into `int` and `float`). -/
inductive Json where
  | null
  | bool (b : Bool)
  | int (n : Int)
  | float (f : PyFloat)
  | str (s : String)
  | arr (elems : List Json)
  | obj (fields : List (String × Json))

/-- Python `str()` of a decoded JSON value, as an f-string renders it.
Container rendering is abbreviated to a fixed placeholder: no reachable
f-string in `tools.py` is ever proved anything about when handed a container,
so only the scalar rows are load-bearing. -/
def Json.pyStr : Json → String
  | .null => "None"
  | .bool true => "True"
  | .bool false => "False"
  | .int n => toString n
  | .float f => f.render
  | .str s => s
  | .arr _ => "[...]"
  | .obj _ => "\x7b...\x7d"

/-- Python truthiness of a decoded JSON value (`if not locations:`). -/
def Json.truthy : Json → Bool
  | .null => false
  | .bool b => b
  | .int n => !(n == 0)
  | .float f => !(f.mant == 0)
  | .str s => !(s.length == 0)
  | .arr xs => !xs.isEmpty
  | .obj kvs => !kvs.isEmpty

/-- Python exceptions that the pipeline can raise, with enough payload to
reproduce `str(e)`. -/
inductive PyError where
  | nameError (name : String)
  | connectionError (msg : String)
  | httpError (status : Nat) (msg : String)
  | jsonDecodeError
  | keyError (key : String)
  | indexError
  | typeError (msg : String)
  | attributeError (attr : String)
deriving DecidableEq

/-- Python `str(e)` for each embedded exception (`str(NameError("name
'asyncio' is not defined"))`, `str(KeyError('lat')) = "'lat'"`, ...). -/
def PyError.str : PyError → String
  | .nameError n => "name '" ++ n ++ "' is not defined"
  | .connectionError m => m
  | .httpError _ m => m
  | .jsonDecodeError => "Expecting value: line 1 column 1 (char 0)"
  | .keyError k => "'" ++ k ++ "'"
  | .indexError => "list index out of range"
  | .typeError m => m
  | .attributeError a => "'object' has no attribute '" ++ a ++ "'"

/-- Subscripting `j[i]` with a non-negative integer index. -/
def pyIndex : Json → Nat → Except PyError Json
  | .arr xs, i =>
    match xs.get? i with
    | some v => .ok v
    | none => .error .indexError
  | .str s, i =>
    match s.toList.get? i with
    | some c => .ok (.str (String.singleton c))
    | none => .error .indexError
  | .obj _, _ => .error (.keyError "0")
  | _, _ => .error (.typeError "object is not subscriptable")

/-- Subscripting `j["k"]` with a string key (`KeyError` when absent,
`TypeError` on a non-dict). -/
def pyKey : Json → String → Except PyError Json
  | .obj kvs, k =>
    match kvs.lookup k with
    | some v => .ok v
    | none => .error (.keyError k)
  | _, _ => .error (.typeError "object is not subscriptable")

/-- Python `j.get(k, d)`: only dicts have the method (`AttributeError`
otherwise), absent keys give the default. -/
def pyGet (j : Json) (k : String) (d : Json) : Except PyError Json :=
  match j with
  | .obj kvs => .ok ((kvs.lookup k).getD d)
  | _ => .error (.attributeError "get")

/-- Python `len(j)` (`TypeError` on scalars). -/
def pyLen : Json → Except PyError Nat
  | .arr xs => .ok xs.length
  | .obj kvs => .ok kvs.length
  | .str s => .ok s.length
  | _ => .error (.typeError "object has no len()")

/-- One step of Python `str.title()`: uppercase a letter that does not follow
a letter, lowercase a letter that does. -/
def titleChars : List Char → Bool → List Char
  | [], _ => []
  | c :: rest, prevAlpha =>
    if c.isAlpha then
      (if prevAlpha then c.toLower else c.toUpper) :: titleChars rest true
    else
      c :: titleChars rest false

/-- Python `city.title()`. -/
def pyTitle (s : String) : String := String.mk (titleChars s.toList false)

/-- Byte-free prefix test on strings (used instead of `String.startsWith` so
closed theorems evaluate by `decide`). -/
def listPrefixOf : List Char → List Char → Bool
  | [], _ => true
  | _ :: _, [] => false
  | a :: as, b :: bs => a == b && listPrefixOf as bs

/-- Substring scan used to state the containment properties of §8. -/
def listInfixOf (pat : List Char) : List Char → Bool
  | [] => listPrefixOf pat []
  | c :: rest => listPrefixOf pat (c :: rest) || listInfixOf pat rest

/-- `strStarts s p` holds when `p` is a prefix of `s`. -/
def strStarts (s p : String) : Bool := listPrefixOf p.toList s.toList

/-- `strContains s p` holds when `p` occurs inside `s`. -/
def strContains (s p : String) : Bool := listInfixOf p.toList s.toList

/-- An outbound HTTP GET as `requests.get(url, params=...)` issues it:
base URL plus the encoded query parameters. -/
structure HttpRequest where
  url : String
  params : List (String × String)
deriving DecidableEq

/-- What the server sent back: status code, reason phrase, and the decoded
JSON body (`none` when `.json()` would fail to parse). -/
structure HttpResponse where
  status : Nat
  reason : String
  body : Option Json

/-- `requests.Response.ok`: the library implements it by calling
`raise_for_status` and returning whether it raised, so it is false exactly
on the statuses 400-599 (a status of 600 or more is `ok`). -/
def HttpResponse.ok (r : HttpResponse) : Bool :=
  !decide (400 ≤ r.status ∧ r.status < 600)

/-- Outcome of `requests.get`: a response, or a transport-level exception
(connection error, timeout) raised by the library itself. -/
inductive HttpResult where
  | resp (r : HttpResponse)
  | exn (msg : String)

/-- The outside world: every upstream behavior is one such function. -/
def Oracle : Type := HttpRequest → HttpResult

/-- `Response.raise_for_status()`: `HTTPError` exactly on statuses 400-599,
with requests' message shape. -/
def raiseForStatus (url : String) (r : HttpResponse) : Except PyError Unit :=
  if 400 ≤ r.status ∧ r.status < 500 then
    .error (.httpError r.status
      (toString r.status ++ " Client Error: " ++ r.reason ++ " for url: " ++ url))
  else if 500 ≤ r.status ∧ r.status < 600 then
    .error (.httpError r.status
      (toString r.status ++ " Server Error: " ++ r.reason ++ " for url: " ++ url))
  else
    .ok ()

/-- `Response.json()`: the decoded body, or `JSONDecodeError`. -/
def responseJson (r : HttpResponse) : Except PyError Json :=
  match r.body with
  | some j => .ok j
  | none => .error .jsonDecodeError

/-- The geocoding request of `get_weather_1` and `get_weather_str`
(tools.py lines 57-64 and 99-105): `requests.get(geocode_url, params=params)`
with `params = {"q": city, "format": "json", "limit": 1}`. -/
def nominatim_req (city : String) : HttpRequest :=
  { url := "https://nominatim.openstreetmap.org/search",
    params := [("q", city), ("format", "json"), ("limit", "1")] }

/-- The forecast request of `get_weather_1` and `get_weather_str`
(tools.py lines 72-78 and 114-120): `requests.get(weather_url,
params=weather_params)` with the latitude/longitude taken from the first
geocoding match and `current_weather: True` encoded as `requests` does. -/
def forecast_req (lat lon : Json) : HttpRequest :=
  { url := "https://api.open-meteo.com/v1/forecast",
    params := [("latitude", lat.pyStr), ("longitude", lon.pyStr),
               ("current_weather", "True")] }

/-- Body of `get_weather` (tools.py lines 32-51), the statements inside the
`try`.  `tools.py` imports only `requests` (and typing/langchain names), never
`asyncio`, so line 35 `await asyncio.to_thread(requests.get, geo_url, ...)`
raises `NameError: name 'asyncio' is not defined` when it evaluates the name
`asyncio` — before `requests.get` is invoked.  Lines 36-51 are unreachable,
so the embedded body raises at once with an empty request trace. -/
def get_weather_try (o : Oracle) (city : String) :
    Except PyError String × List HttpRequest :=
  let geo_url : String :=
    "https://geocoding-api.open-meteo.com/v1/search?name=" ++ city ++ "&count=1"
  let _ := geo_url
  let _ := o
  (.error (.nameError "asyncio"), [])

/-- `get_weather` (tools.py lines 30-53): the `try` body, with any exception
converted by line 52-53 into the error sentence. -/
def get_weather (o : Oracle) (city : String) : String × List HttpRequest :=
  match get_weather_try o city with
  | (.ok s, tr) => (s, tr)
  | (.error e, tr) => ("Error retrieving weather data: " ++ e.str, tr)

/-- Step 2 of `get_weather_1` (tools.py lines 72-91): forecast call,
`raise_for_status`, `.json()`, the three `.get` extractions, and the record
assembly of lines 86-91.  Returns the result with the trace of the requests
this step issued. -/
def gw1_step2 (o : Oracle) (city : String) (lat lon : Json) :
    Except PyError Json × List HttpRequest :=
  let req := forecast_req lat lon
  match o req with
  | .exn m => (.error (.connectionError m), [req])
  | .resp wr =>
    match raiseForStatus "https://api.open-meteo.com/v1/forecast" wr with
    | .error e => (.error e, [req])
    | .ok _ =>
      match responseJson wr with
      | .error e => (.error e, [req])
      | .ok data =>
        match pyGet data "current_weather" (Json.obj []) with
        | .error e => (.error e, [req])
        | .ok current =>
          match pyGet current "temperature" Json.null with
          | .error e => (.error e, [req])
          | .ok temperature =>
            match pyGet current "windspeed" Json.null with
            | .error e => (.error e, [req])
            | .ok windspeed =>
              match pyGet current "weathercode" Json.null with
              | .error e => (.error e, [req])
              | .ok weather_code =>
                (.ok (Json.obj
                  [("city", Json.str (pyTitle city)),
                   ("temperature_celsius", temperature),
                   ("windspeed_kmh", windspeed),
                   ("weather_code", weather_code)]), [req])

/-- Body of `get_weather_1` (tools.py lines 64-91), the statements inside the
`try`: geocode call, `raise_for_status`, `.json()`, the `if not locations`
early return of lines 67-68 (a normal return, not an exception), extraction of
`locations[0]["lat"]` / `["lon"]`, then step 2. -/
def gw1_try (o : Oracle) (city : String) :
    Except PyError Json × List HttpRequest :=
  let req := nominatim_req city
  match o req with
  | .exn m => (.error (.connectionError m), [req])
  | .resp gr =>
    match raiseForStatus "https://nominatim.openstreetmap.org/search" gr with
    | .error e => (.error e, [req])
    | .ok _ =>
      match responseJson gr with
      | .error e => (.error e, [req])
      | .ok locations =>
        if locations.truthy = false then
          (.ok (Json.obj
            [("error", Json.str ("Can't find location for '" ++ city ++ "'."))]),
           [req])
        else
          match pyIndex locations 0 with
          | .error e => (.error e, [req])
          | .ok loc0 =>
            match pyKey loc0 "lat" with
            | .error e => (.error e, [req])
            | .ok lat =>
              match pyKey loc0 "lon" with
              | .error e => (.error e, [req])
              | .ok lon =>
                match gw1_step2 o city lat lon with
                | (res, tr2) => (res, req :: tr2)

/-- `get_weather_1` (tools.py lines 55-93): the `try` body, with any exception
converted by lines 92-93 into the record `{"error": str(e)}`. -/
def get_weather_1 (o : Oracle) (city : String) : Json × List HttpRequest :=
  match gw1_try o city with
  | (.ok v, tr) => (v, tr)
  | (.error e, tr) => (Json.obj [("error", Json.str e.str)], tr)

/-- Step 2 of `get_weather_str` (tools.py lines 114-130): forecast call, the
`.ok` flag check of lines 122-123 (returning a sentence, not raising), then
the `.get` extractions and the sentence of line 130. -/
def gws_step2 (o : Oracle) (city : String) (lat lon : Json) :
    Except PyError String × List HttpRequest :=
  let req := forecast_req lat lon
  match o req with
  | .exn m => (.error (.connectionError m), [req])
  | .resp wr =>
    if wr.ok = false then
      (.ok ("Sorry, I couldn't fetch weather data for " ++ city ++ "."), [req])
    else
      match responseJson wr with
      | .error e => (.error e, [req])
      | .ok data =>
        match pyGet data "current_weather" (Json.obj []) with
        | .error e => (.error e, [req])
        | .ok weather =>
          match pyGet weather "temperature" Json.null with
          | .error e => (.error e, [req])
          | .ok temp =>
            match pyGet weather "windspeed" Json.null with
            | .error e => (.error e, [req])
            | .ok windspeed =>
              match pyGet weather "weathercode" Json.null with
              | .error e => (.error e, [req])
              | .ok weather_code =>
                (.ok ("The current temperature in " ++ pyTitle city ++ " is "
                  ++ temp.pyStr ++ "°C with wind speed " ++ windspeed.pyStr
                  ++ " km/h (weather code: " ++ weather_code.pyStr ++ ")."),
                 [req])

/-- `get_weather_str` (tools.py lines 95-130).  There is no `try`: an
`Except.error` result is an exception propagating to the caller.  Line 107
short-circuits: a non-`ok` response returns the sentence without calling
`.json()`; with an `ok` response, `.json()` runs (twice in the source, with
the same result) and its length is tested; then `data = json()[0]`,
`data["lat"]`, `data["lon"]`, and step 2. -/
def get_weather_str (o : Oracle) (city : String) :
    Except PyError String × List HttpRequest :=
  let req := nominatim_req city
  match o req with
  | .exn m => (.error (.connectionError m), [req])
  | .resp gr =>
    if gr.ok = false then
      (.ok ("Sorry, I couldn't find location for " ++ city ++ "."), [req])
    else
      match responseJson gr with
      | .error e => (.error e, [req])
      | .ok js =>
        match pyLen js with
        | .error e => (.error e, [req])
        | .ok n =>
          if n = 0 then
            (.ok ("Sorry, I couldn't find location for " ++ city ++ "."), [req])
          else
            match pyIndex js 0 with
            | .error e => (.error e, [req])
            | .ok data =>
              match pyKey data "lat" with
              | .error e => (.error e, [req])
              | .ok lat =>
                match pyKey data "lon" with
                | .error e => (.error e, [req])
                | .ok lon =>
                  match gws_step2 o city lat lon with
                  | (res, tr2) => (res, req :: tr2)

/-- Modelled from the spec: the ambient per-run context object of §6 — not
under `src/` (only `tools.py` is staged; `react_agent/context.py` is its
collaborator) — exposing the single integer `max_search_results` that
`search` reads through `get_runtime(Context)`. -/
structure Context where
  max_search_results : Int

/-- One backend invocation as `TavilySearch(...).ainvoke({"query": query})`
issues it: the constructor's `max_results` bound and the query. -/
structure SearchCall where
  max_results : Int
  query : String
deriving DecidableEq

/-- Modelled from the spec: the hosted search backend of §2/§6 (the
`TavilySearch` client library, an external collaborator), which either
returns a provider-defined payload or fails; `search` applies no recovery,
so a fault is returned as the raised exception. -/
inductive SearchOutcome where
  | payload (result : Json)
  | fault (msg : String)

/-- The search backend: every upstream behavior is one such function. -/
def SearchBackend : Type := Int → String → SearchOutcome

/-- `search` (tools.py lines 19-28): read `max_search_results` from the
ambient context, build the wrapped client with exactly that bound, and issue
one backend call, returning its outcome unchanged (faults uncaught). -/
def search (backend : SearchBackend) (ctx : Context) (query : String) :
    SearchOutcome × List SearchCall :=
  let wrapped_max := ctx.max_search_results
  (backend wrapped_max query, [{ max_results := wrapped_max, query := query }])

/-- The registered tool list (tools.py line 133): `[search, get_weather]` —
`get_weather` (the sentence variant with the `asyncio` reference) is the
registered weather tool, not `get_weather_1` or `get_weather_str`. -/
inductive ToolName where
  | search
  | get_weather
deriving DecidableEq

/-- `TOOLS` (tools.py line 133). -/
def TOOLS : List ToolName := [ToolName.search, ToolName.get_weather]

/-- The spec's mocked geocode body for "Berlin" in Nominatim's shape: one
match with `lat` 52.52 and `lon` 13.405. -/
def berlinGeo : Json :=
  Json.arr [Json.obj [("lat", Json.float ⟨5252, 2⟩), ("lon", Json.float ⟨13405, 3⟩)]]

/-- The spec's mocked forecast body: current conditions with temperature
18.0, windspeed 10.0 and weathercode 2. -/
def berlinWx : Json :=
  Json.obj [("current_weather", Json.obj
    [("temperature", Json.float ⟨180, 1⟩),
     ("windspeed", Json.float ⟨100, 1⟩),
     ("weathercode", Json.int 2)])]

/-- The mocked upstream of §8: serves the geocode fixture on both geocoding
endpoints (Nominatim shape and Open-Meteo shape, so every variant's endpoint
is covered) and the forecast fixture on the forecast endpoint. -/
def berlinOracle : Oracle := fun req =>
  if strStarts req.url "https://nominatim.openstreetmap.org/search" then
    .resp ⟨200, "OK", some berlinGeo⟩
  else if strStarts req.url "https://geocoding-api.open-meteo.com/v1/search" then
    .resp ⟨200, "OK", some (Json.obj [("results",
      Json.arr [Json.obj [("latitude", Json.float ⟨5252, 2⟩),
                          ("longitude", Json.float ⟨13405, 3⟩)]])])⟩
  else if strStarts req.url "https://api.open-meteo.com/v1/forecast" then
    .resp ⟨200, "OK", some berlinWx⟩
  else
    .exn "connection refused"

/-- Upstream that answers every request with HTTP 500. -/
def oracle500 : Oracle := fun _ =>
  .resp ⟨500, "INTERNAL SERVER ERROR", some (Json.arr [])⟩

/-- Upstream whose geocoding answer carries the non-2xx status 302 with a
valid match body, and which serves the forecast fixture otherwise. -/
def oracle302 : Oracle := fun req =>
  if strStarts req.url "https://nominatim.openstreetmap.org/search" then
    .resp ⟨302, "Found", some berlinGeo⟩
  else
    .resp ⟨200, "OK", some berlinWx⟩

/-- Upstream that geocodes every city to zero matches (HTTP 200, body `[]`). -/
def emptyOracle : Oracle := fun _ =>
  .resp ⟨200, "OK", some (Json.arr [])⟩

/-- Upstream serving the Berlin geocode fixture and a forecast body whose
`current_weather` sub-object is `cw` (used to probe missing fields). -/
def cwOracle (cw : Json) : Oracle := fun req =>
  if strStarts req.url "https://nominatim.openstreetmap.org/search" then
    .resp ⟨200, "OK", some berlinGeo⟩
  else if strStarts req.url "https://api.open-meteo.com/v1/forecast" then
    .resp ⟨200, "OK", some (Json.obj [("current_weather", cw)])⟩
  else
    .exn "connection refused"

/-- Upstream on which every `requests.get` raises a transport exception. -/
def exnOracle : Oracle := fun _ => .exn "Connection refused"

/-- Two invocations of the same tool against the same upstream behavior. -/
def invoke_twice {α : Type} (f : Oracle → String → α) (o : Oracle) (city : String) :
    α × α :=
  (f o city, f o city)

/-- C1: for every city and every upstream behavior, `get_weather` returns a
string beginning "Error retrieving weather data:" and issues zero outbound
HTTP calls: the un-imported name `asyncio` raises `NameError` inside the
`try` before `requests.get` can run, and the catch-all of lines 52-53 turns
it into the error sentence, so the success branch is unreachable. -/
theorem c1_get_weather_always_error_no_calls :
    ∀ (o : Oracle) (city : String),
      strStarts (get_weather o city).fst "Error retrieving weather data:" = true ∧
      (get_weather o city).snd = [] ∧
      (get_weather o city).fst =
        "Error retrieving weather data: name 'asyncio' is not defined" :=
  fun _ _ => ⟨rfl, rfl, rfl⟩

/-- C2: on the mocked Berlin fixtures (lat 52.52 / lon 13.405; temperature
18.0, windspeed 10.0, weathercode 2) the structured-record variant
`get_weather_1` returns exactly the record of lines 86-91. -/
theorem c2_get_weather_1_berlin_roundtrip :
    (get_weather_1 berlinOracle "Berlin").fst =
      Json.obj [("city", Json.str "Berlin"),
                ("temperature_celsius", Json.float ⟨180, 1⟩),
                ("windspeed_kmh", Json.float ⟨100, 1⟩),
                ("weather_code", Json.int 2)] := rfl

/-- C9: invoking any weather variant twice against identical upstream
responses yields identical outcomes (result and request trace).  The
embedding is a pure function of the oracle and the city, which is faithful
because `tools.py` defines no module-level mutable state (its only module
binding, `TOOLS`, is never written after creation), so nothing survives a
call. -/
theorem c9_idempotent_reinvocation :
    ∀ (o : Oracle) (city : String),
      (invoke_twice get_weather o city).1 = (invoke_twice get_weather o city).2 ∧
      (invoke_twice get_weather_1 o city).1 = (invoke_twice get_weather_1 o city).2 ∧
      (invoke_twice get_weather_str o city).1 = (invoke_twice get_weather_str o city).2 :=
  fun _ _ => ⟨rfl, rfl, rfl⟩

/-- C10: `search` reads the maximum-result count from the ambient context and
issues exactly one backend call carrying exactly that bound (with
`max_search_results = 3` the call carries 3), and its outcome is the
backend's outcome unchanged — no local recovery, so a backend fault is
returned as the raised fault. -/
theorem c10_search_exact_limit_no_recovery :
    ∀ (backend : SearchBackend) (ctx : Context) (query : String),
      (search backend ctx query).snd =
        [{ max_results := ctx.max_search_results, query := query }] ∧
      (search backend ctx query).fst = backend ctx.max_search_results query ∧
      (search backend { max_search_results := 3 } query).snd =
        [{ max_results := 3, query := query }] :=
  fun _ _ _ => ⟨rfl, rfl, rfl⟩

/-- C5 counterexample: under the very Berlin fixtures of the spec, the
sentence variant `get_weather` (registered in `TOOLS`) returns the `NameError`
sentence, which contains neither "18.0" nor "10.0" nor the title-cased city
name — refuting "every sentence variant returns a string that contains ...". -/
theorem c5_counterexample :
    (get_weather berlinOracle "berlin").fst =
      "Error retrieving weather data: name 'asyncio' is not defined" ∧
    strContains (get_weather berlinOracle "berlin").fst "18.0" = false ∧
    strContains (get_weather berlinOracle "berlin").fst "10.0" = false ∧
    strContains (get_weather berlinOracle "berlin").fst "Berlin" = false :=
  ⟨rfl, by decide, by decide, by decide⟩

/-- C5 amended: on the mocked Berlin fixtures the working sentence variant
`get_weather_str` returns a sentence containing "18.0", "10.0" and the
title-cased city name, while `get_weather` returns the `NameError` sentence. -/
theorem c5_amended_sentence_contains :
    (get_weather_str berlinOracle "berlin").fst =
      Except.ok "The current temperature in Berlin is 18.0°C with wind speed 10.0 km/h (weather code: 2)." ∧
    strContains
      "The current temperature in Berlin is 18.0°C with wind speed 10.0 km/h (weather code: 2)."
      "18.0" = true ∧
    strContains
      "The current temperature in Berlin is 18.0°C with wind speed 10.0 km/h (weather code: 2)."
      "10.0" = true ∧
    strContains
      "The current temperature in Berlin is 18.0°C with wind speed 10.0 km/h (weather code: 2)."
      "Berlin" = true ∧
    pyTitle "berlin" = "Berlin" ∧
    (get_weather berlinOracle "berlin").fst =
      "Error retrieving weather data: name 'asyncio' is not defined" :=
  ⟨rfl, by decide, by decide, by decide, rfl, rfl⟩

/-- C7: for every exception raised inside the two-step pipeline of a guarded
variant, the variant returns normally (the embedded wrappers are total
functions into `String` resp. `Json`) with the fault's description as text:
the error sentence for `get_weather` (lines 52-53) and the `{"error":
str(e)}` record for `get_weather_1` (lines 92-93). -/
theorem c7_guarded_fault_containment :
    ∀ (o : Oracle) (city : String) (e : PyError) (tr : List HttpRequest),
      (get_weather_try o city = (Except.error e, tr) →
        get_weather o city = ("Error retrieving weather data: " ++ e.str, tr)) ∧
      (gw1_try o city = (Except.error e, tr) →
        get_weather_1 o city = (Json.obj [("error", Json.str e.str)], tr)) := by
  intro o city e tr
  constructor
  · intro h
    simp [get_weather, h]
  · intro h
    simp [get_weather_1, h]

/-- Witness for C7 at a concrete upstream where every request raises a
transport exception: `get_weather_1` converts it to the error record and
`get_weather` converts its `NameError` to the error sentence. -/
theorem c7_witness :
    gw1_try exnOracle "Paris" =
      (Except.error (PyError.connectionError "Connection refused"),
       [nominatim_req "Paris"]) ∧
    get_weather_1 exnOracle "Paris" =
      (Json.obj [("error", Json.str "Connection refused")],
       [nominatim_req "Paris"]) ∧
    get_weather_try exnOracle "Paris" =
      (Except.error (PyError.nameError "asyncio"), []) ∧
    get_weather exnOracle "Paris" =
      ("Error retrieving weather data: name 'asyncio' is not defined", []) := by
  refine ⟨rfl, ?_, rfl, ?_⟩
  · exact (c7_guarded_fault_containment exnOracle "Paris"
      (PyError.connectionError "Connection refused") [nominatim_req "Paris"]).2 rfl
  · exact (c7_guarded_fault_containment exnOracle "Paris"
      (PyError.nameError "asyncio") []).1 rfl

/-- C3 counterexample: (a) on an HTTP 500 geocoding answer — an HTTP fault —
the unguarded `get_weather_str` does not propagate: line 107 checks `.ok` and
returns the location sentence normally; (b) on the non-2xx geocoding status
302 with a valid match body, the guarded `get_weather_1` does invoke the
forecast endpoint, because `raise_for_status` raises only on 400-599. -/
theorem c3_counterexample :
    get_weather_str oracle500 "Berlin" =
      (Except.ok "Sorry, I couldn't find location for Berlin.",
       [nominatim_req "Berlin"]) ∧
    (get_weather_1 oracle302 "Berlin").snd =
      [nominatim_req "Berlin",
       forecast_req (Json.float ⟨5252, 2⟩) (Json.float ⟨13405, 3⟩)] :=
  ⟨rfl, rfl⟩

/-- C3 amended: with "HTTP fault" read as the `requests` library reads it —
a transport exception, or a status in 400-599 (the only statuses
`raise_for_status` raises on, and exactly the ones `.ok` reports as not ok) —
the guarded `get_weather_1` returns an error record and never invokes the
forecast endpoint; the guarded `get_weather` always returns an error sentence
and issues no calls at all; and the unguarded `get_weather_str` propagates
only transport exceptions, converting a status in 400-599 into a location
sentence without invoking the forecast endpoint. -/
theorem c3_amended_geocode_faults :
    ∀ (o : Oracle) (city : String),
      (∀ m, o (nominatim_req city) = HttpResult.exn m →
        get_weather_1 o city =
          (Json.obj [("error", Json.str m)], [nominatim_req city]) ∧
        get_weather_str o city =
          (Except.error (PyError.connectionError m), [nominatim_req city])) ∧
      (∀ r, o (nominatim_req city) = HttpResult.resp r →
        400 ≤ r.status → r.status < 600 →
        ∃ msg, get_weather_1 o city =
          (Json.obj [("error", Json.str msg)], [nominatim_req city])) ∧
      (∀ r, o (nominatim_req city) = HttpResult.resp r →
        400 ≤ r.status → r.status < 600 →
        get_weather_str o city =
          (Except.ok ("Sorry, I couldn't find location for " ++ city ++ "."),
           [nominatim_req city])) ∧
      (strStarts (get_weather o city).fst "Error retrieving weather data:" = true ∧
        (get_weather o city).snd = []) := by
  intro o city
  refine ⟨?_, ?_, ?_, rfl, rfl⟩
  · intro m h
    constructor
    · simp [get_weather_1, gw1_try, h, PyError.str]
    · simp [get_weather_str, h]
  · intro r h h4 h6
    rcases Nat.lt_or_ge r.status 500 with h5 | h5
    · refine ⟨toString r.status ++ " Client Error: " ++ r.reason
        ++ " for url: " ++ "https://nominatim.openstreetmap.org/search", ?_⟩
      simp [get_weather_1, gw1_try, raiseForStatus, h, h4, h5, PyError.str]
    · refine ⟨toString r.status ++ " Server Error: " ++ r.reason
        ++ " for url: " ++ "https://nominatim.openstreetmap.org/search", ?_⟩
      have h4' : ¬ r.status < 500 := by omega
      simp [get_weather_1, gw1_try, raiseForStatus, h, h4', h5, h6, PyError.str]
  · intro r h h4 h6
    have hok : r.ok = false := by
      simp [HttpResponse.ok]
      omega
    simp [get_weather_str, h, hok]

/-- Witness for C3 (amended) at the all-500 upstream: `get_weather_1`
returns an error record and `get_weather_str` returns the location sentence,
each after the single geocoding call. -/
theorem c3_witness :
    (∃ msg, get_weather_1 oracle500 "Berlin" =
      (Json.obj [("error", Json.str msg)], [nominatim_req "Berlin"])) ∧
    get_weather_str oracle500 "Berlin" =
      (Except.ok ("Sorry, I couldn't find location for " ++ "Berlin" ++ "."),
       [nominatim_req "Berlin"]) := by
  have h := c3_amended_geocode_faults oracle500 "Berlin"
  exact ⟨h.2.1 ⟨500, "INTERNAL SERVER ERROR", some (Json.arr [])⟩ rfl
          (by decide) (by decide),
        h.2.2.1 ⟨500, "INTERNAL SERVER ERROR", some (Json.arr [])⟩ rfl
          (by decide) (by decide)⟩

/-- C4 counterexample: with an upstream that geocodes every city to zero
matches, `get_weather` does not return a not-found outcome: it returns the
`NameError` sentence (its lines 38-39 are unreachable), refuting "every
weather-pipeline variant returns a not-found outcome". -/
theorem c4_counterexample :
    get_weather emptyOracle "Berlin" =
      ("Error retrieving weather data: name 'asyncio' is not defined", []) ∧
    "Error retrieving weather data: name 'asyncio' is not defined" ≠
      "Sorry, could not find location info for city 'Berlin'." :=
  ⟨rfl, by decide⟩

/-- C4 amended: on a successful geocoding answer with zero matches,
`get_weather_1` returns its `{"error": "Can't find location ..."}` record and
`get_weather_str` its not-found sentence, each without any forecast call;
`get_weather` issues no calls at all and returns the `NameError` sentence
instead of a not-found outcome. -/
theorem c4_amended_zero_matches :
    ∀ (o : Oracle) (city : String),
      (∀ r j, o (nominatim_req city) = HttpResult.resp r → r.status < 400 →
        r.body = some j → j.truthy = false →
        get_weather_1 o city =
          (Json.obj [("error",
             Json.str ("Can't find location for '" ++ city ++ "'."))],
           [nominatim_req city])) ∧
      (∀ r j, o (nominatim_req city) = HttpResult.resp r → r.ok = true →
        r.body = some j → pyLen j = Except.ok 0 →
        get_weather_str o city =
          (Except.ok ("Sorry, I couldn't find location for " ++ city ++ "."),
           [nominatim_req city])) ∧
      ((get_weather o city).snd = [] ∧
        strStarts (get_weather o city).fst "Error retrieving weather data:" = true) := by
  intro o city
  refine ⟨?_, ?_, rfl, rfl⟩
  · intro r j h h4 hb ht
    have h4' : ¬ (400 ≤ r.status) := by omega
    have h5' : ¬ (500 ≤ r.status) := by omega
    simp [get_weather_1, gw1_try, raiseForStatus, responseJson, h, h4', h5', hb, ht]
  · intro r j h hok hb hlen
    simp [get_weather_str, responseJson, h, hok, hb, hlen]

/-- Witness for C4 (amended) at the zero-match upstream. -/
theorem c4_witness :
    get_weather_1 emptyOracle "Berlin" =
      (Json.obj [("error", Json.str ("Can't find location for '" ++ "Berlin" ++ "'."))],
       [nominatim_req "Berlin"]) ∧
    get_weather_str emptyOracle "Berlin" =
      (Except.ok ("Sorry, I couldn't find location for " ++ "Berlin" ++ "."),
       [nominatim_req "Berlin"]) := by
  have h := c4_amended_zero_matches emptyOracle "Berlin"
  exact ⟨h.1 ⟨200, "OK", some (Json.arr [])⟩ (Json.arr []) rfl (by decide) rfl rfl,
         h.2.1 ⟨200, "OK", some (Json.arr [])⟩ (Json.arr []) rfl rfl rfl rfl⟩

/-- Full evaluation of `get_weather_1` against the `cwOracle` fixture: the
geocode stage is concrete, so the record reduces to the three `.get`
extractions over the supplied `current_weather` fields. -/
theorem gw1_cw_eval (cw : List (String × Json)) :
    get_weather_1 (cwOracle (Json.obj cw)) "Berlin" =
      (Json.obj [("city", Json.str (pyTitle "Berlin")),
         ("temperature_celsius", ((cw.lookup "temperature").getD Json.null)),
         ("windspeed_kmh", ((cw.lookup "windspeed").getD Json.null)),
         ("weather_code", ((cw.lookup "weathercode").getD Json.null))],
       [nominatim_req "Berlin",
        forecast_req (Json.float ⟨5252, 2⟩) (Json.float ⟨13405, 3⟩)]) := rfl

/-- Full evaluation of `get_weather_str` against the `cwOracle` fixture. -/
theorem gws_cw_eval (cw : List (String × Json)) :
    get_weather_str (cwOracle (Json.obj cw)) "Berlin" =
      (Except.ok ("The current temperature in " ++ pyTitle "Berlin" ++ " is "
         ++ ((cw.lookup "temperature").getD Json.null).pyStr
         ++ "°C with wind speed "
         ++ ((cw.lookup "windspeed").getD Json.null).pyStr
         ++ " km/h (weather code: "
         ++ ((cw.lookup "weathercode").getD Json.null).pyStr ++ ")."),
       [nominatim_req "Berlin",
        forecast_req (Json.float ⟨5252, 2⟩) (Json.float ⟨13405, 3⟩)]) := rfl

/-- C8 counterexample: with the forecast's current-conditions sub-object
present but empty, `get_weather` yields an error outcome (the `NameError`
sentence — lines 49-51 would in any case subscript the missing fields
directly and raise `KeyError`), not a sentence with absent values, refuting
"in step 2 of every variant ... rather than ... producing an error
outcome". -/
theorem c8_counterexample :
    get_weather (cwOracle (Json.obj [])) "Berlin" =
      ("Error retrieving weather data: name 'asyncio' is not defined", []) ∧
    strContains "Error retrieving weather data: name 'asyncio' is not defined"
      "None" = false ∧
    strStarts "Error retrieving weather data: name 'asyncio' is not defined"
      "Error" = true :=
  ⟨rfl, by decide, by decide⟩

/-- C8 amended: in the variants that reach step 2 (`get_weather_1`,
`get_weather_str`), a present current-conditions object lacking
`temperature` yields an absent value — `None` in the record, the text
"None" in the sentence — with no exception and no error outcome; the same
`.get(...)` shape covers `windspeed` and `weathercode`, whose values reduce
to their lookups with default `None`. -/
theorem c8_amended_missing_field_none :
    ∀ (cw : List (String × Json)), cw.lookup "temperature" = none →
      (get_weather_1 (cwOracle (Json.obj cw)) "Berlin").fst =
        Json.obj [("city", Json.str (pyTitle "Berlin")),
          ("temperature_celsius", Json.null),
          ("windspeed_kmh", ((cw.lookup "windspeed").getD Json.null)),
          ("weather_code", ((cw.lookup "weathercode").getD Json.null))] ∧
      (get_weather_str (cwOracle (Json.obj cw)) "Berlin").fst =
        Except.ok ("The current temperature in " ++ pyTitle "Berlin" ++ " is "
          ++ "None" ++ "°C with wind speed "
          ++ ((cw.lookup "windspeed").getD Json.null).pyStr
          ++ " km/h (weather code: "
          ++ ((cw.lookup "weathercode").getD Json.null).pyStr ++ ").") := by
  intro cw h
  constructor
  · rw [gw1_cw_eval cw]
    simp [h]
  · rw [gws_cw_eval cw]
    simp [h, Json.pyStr]

/-- Witness for C8 (amended) at the empty current-conditions object: all
three fields are absent, the record carries three `None`s and the sentence
renders them as "None". -/
theorem c8_witness :
    (get_weather_1 (cwOracle (Json.obj [])) "Berlin").fst =
      Json.obj [("city", Json.str "Berlin"),
        ("temperature_celsius", Json.null),
        ("windspeed_kmh", Json.null),
        ("weather_code", Json.null)] ∧
    (get_weather_str (cwOracle (Json.obj [])) "Berlin").fst =
      Except.ok "The current temperature in Berlin is None°C with wind speed None km/h (weather code: None)." := by
  have h := c8_amended_missing_field_none [] rfl
  exact ⟨h.1, h.2⟩

/-- Statuses that `raise_for_status` lets through (below 400, or the
out-of-range 600+ it does not consider an error). -/
def statusPasses (s : Nat) : Bool := decide (s < 400 ∨ 600 ≤ s)

/-- The geocoding step of `get_weather_1` succeeded with at least one match:
the call returned a response that `raise_for_status` accepted, whose body
decoded to a truthy (non-empty) value. -/
def geo_success_1 (o : Oracle) (city : String) : Bool :=
  match o (nominatim_req city) with
  | .exn _ => false
  | .resp gr =>
    statusPasses gr.status &&
    (match gr.body with
     | some j => j.truthy
     | none => false)

/-- The geocoding step of `get_weather_str` succeeded with at least one
match: an `ok` response whose body decoded to a value of nonzero length. -/
def geo_success_str (o : Oracle) (city : String) : Bool :=
  match o (nominatim_req city) with
  | .exn _ => false
  | .resp gr =>
    gr.ok &&
    (match gr.body with
     | some j =>
       (match pyLen j with
        | .ok n => !(n == 0)
        | .error _ => false)
     | none => false)

/-- Step 2 always issues exactly the one forecast request, whatever the
upstream does. -/
theorem gw1_step2_trace (o : Oracle) (city : String) (lat lon : Json) :
    (gw1_step2 o city lat lon).snd = [forecast_req lat lon] := by
  simp only [gw1_step2]
  repeat' split
  all_goals rfl

/-- Step 2 of the sentence variant always issues exactly the one forecast
request. -/
theorem gws_step2_trace (o : Oracle) (city : String) (lat lon : Json) :
    (gws_step2 o city lat lon).snd = [forecast_req lat lon] := by
  simp only [gws_step2]
  repeat' split
  all_goals rfl

/-- The guarded wrapper of `get_weather_1` preserves the request trace of
its body. -/
theorem gw1_trace_eq (o : Oracle) (city : String) :
    (get_weather_1 o city).snd = (gw1_try o city).snd := by
  unfold get_weather_1
  split
  · next v tr heq => rw [heq]
  · next e tr heq => rw [heq]

/-- Trace shape of the body of `get_weather_1`: the geocoding request alone,
or the geocoding request followed by the forecast request — the latter only
when the geocoding step succeeded with a match. -/
theorem gw1_try_trace (o : Oracle) (city : String) :
    (gw1_try o city).snd = [nominatim_req city] ∨
      ∃ lat lon, (gw1_try o city).snd =
          [nominatim_req city, forecast_req lat lon] ∧
        geo_success_1 o city = true := by
  simp only [gw1_try]
  split
  · left; rfl
  · next gr heq =>
    split
    · left; rfl
    · next u hraise =>
      split
      · left; rfl
      · next locations hjson =>
        split
        · left; rfl
        · next htruthy =>
          split
          · left; rfl
          · next loc0 hidx =>
            split
            · left; rfl
            · next lat hlat =>
              split
              · left; rfl
              · next lon hlon =>
                right
                refine ⟨lat, lon, ?_, ?_⟩
                · rcases hs : gw1_step2 o city lat lon with ⟨res, tr2⟩
                  have ht := gw1_step2_trace o city lat lon
                  rw [hs] at ht
                  simp only [hs]
                  exact congrArg (fun l => nominatim_req city :: l) ht
                · have hb : gr.body = some locations := by
                    unfold responseJson at hjson
                    split at hjson
                    · next x hx =>
                      rw [hx]
                      cases hjson
                      rfl
                    · cases hjson
                  have hsp : statusPasses gr.status = true := by
                    unfold raiseForStatus at hraise
                    by_cases h1 : 400 ≤ gr.status ∧ gr.status < 500
                    · simp [h1] at hraise
                    · by_cases h2 : 500 ≤ gr.status ∧ gr.status < 600
                      · simp [h1, h2] at hraise
                      · unfold statusPasses
                        simp only [decide_eq_true_eq]
                        omega
                  have ht : locations.truthy = true := by
                    revert htruthy
                    cases locations.truthy <;> simp
                  simp [geo_success_1, heq, hb, hsp, ht]

/-- Trace shape of `get_weather_str`. -/
theorem gws_trace (o : Oracle) (city : String) :
    (get_weather_str o city).snd = [nominatim_req city] ∨
      ∃ lat lon, (get_weather_str o city).snd =
          [nominatim_req city, forecast_req lat lon] ∧
        geo_success_str o city = true := by
  simp only [get_weather_str]
  split
  · left; rfl
  · next gr heq =>
    split
    · left; rfl
    · next hok =>
      split
      · left; rfl
      · next js hjson =>
        split
        · left; rfl
        · next n hlen =>
          split
          · left; rfl
          · next hn =>
            split
            · left; rfl
            · next data hidx =>
              split
              · left; rfl
              · next lat hlat =>
                split
                · left; rfl
                · next lon hlon =>
                  right
                  refine ⟨lat, lon, ?_, ?_⟩
                  · rcases hs : gws_step2 o city lat lon with ⟨res, tr2⟩
                    have ht := gws_step2_trace o city lat lon
                    rw [hs] at ht
                    simp only [hs]
                    exact congrArg (fun l => nominatim_req city :: l) ht
                  · have hb : gr.body = some js := by
                      unfold responseJson at hjson
                      split at hjson
                      · next x hx =>
                        rw [hx]
                        cases hjson
                        rfl
                      · cases hjson
                    have hok' : gr.ok = true := by
                      revert hok
                      cases gr.ok <;> simp
                    simp [geo_success_str, heq, hb, hok', hlen, hn]

/-- C6: per invocation, every variant issues at most two outbound calls, in
source order — geocode first, forecast second — and the forecast request is
issued only when the geocoding call succeeded and yielded at least one match
(`get_weather` issues none at all, its pipeline raising before the first
call). -/
theorem c6_at_most_two_sequential_calls :
    ∀ (o : Oracle) (city : String),
      (get_weather o city).snd = [] ∧
      ((get_weather_1 o city).snd = [nominatim_req city] ∨
        ∃ lat lon, (get_weather_1 o city).snd =
            [nominatim_req city, forecast_req lat lon] ∧
          geo_success_1 o city = true) ∧
      ((get_weather_str o city).snd = [nominatim_req city] ∨
        ∃ lat lon, (get_weather_str o city).snd =
            [nominatim_req city, forecast_req lat lon] ∧
          geo_success_str o city = true) := by
  intro o city
  refine ⟨rfl, ?_, gws_trace o city⟩
  have e := gw1_trace_eq o city
  rw [e]
  exact gw1_try_trace o city
